import Mathlib

/-!
Verification development for the `ProxyService::ProxyHandler` relay
(src/proxygen/example/http_server/ProxyHandler.cpp).

The handler is shallowly embedded as a state machine: the object state
mirrors the C++ members, every callback of the source file becomes a Lean
function from a state to a new state paired with the list of observable
calls (actions) it makes, in source order.  An event dispatcher `step`
models the event loop: once the object has deleted itself (`alive = false`)
or a `CHECK` macro has aborted the process (`crashed = true`) no further
callback runs on it.  `run` folds a whole event sequence.

The repository does not ship ProxyHandler.h nor BusiHandler.cpp, so the
members they declare and the forward decision they compute are modelled
from the spec where noted; everything else is translated directly from
ProxyHandler.cpp.
-/

namespace ProxyRelay

/-- HTTP method of the client request (the source only distinguishes
GET and POST from everything else). -/
inductive Method
  | GET
  | POST
  | DELETE
  | PUT
  | HEAD
  | OPTIONS
deriving DecidableEq

/-- Client request metadata, the part of proxygen HTTPMessage the handler
reads. -/
structure HTTPMessage where
  method : Method
  url : String
deriving DecidableEq

/-- Observable calls the handler makes on its collaborators.  `ds` calls go
to the downstream (client) adapter, `up` calls to the upstream transaction,
`sock` calls to the raw upstream socket.  A ResponseBuilder `sendWithEOM`
expands to its constituent header/body/EOM sends. -/
inductive Action
  | dsSendHeaders (status : Nat) (reason : String)
  | dsFwdHeaders
  | dsSendBody
  | dsSendEOM
  | dsSendAbort
  | dsPauseIngress
  | dsResumeIngress
  | connectorConnect
  | upSendHeaders
  | upSendBody
  | upSendEOM
  | upSendAbort
  | upPauseIngress
  | upResumeIngress
  | sockSetReadCB (attached : Bool)
  | sockReset
  | ranShutdownCheck
  | destroySelf
  | checkFailed
  | logDropEOM
deriving DecidableEq

/-- True exactly for the header sends of a synthesized (ResponseBuilder)
immediate response, as opposed to headers forwarded from upstream. -/
def Action.isImmediate : Action → Bool
  | .dsSendHeaders _ _ => true
  | _ => false

/-- READS_SHUTDOWN bit of sockStatus_. -/
def READS_SHUTDOWN : Nat := 1

/-- WRITES_SHUTDOWN bit of sockStatus_. -/
def WRITES_SHUTDOWN : Nat := 2

/-- CLOSED = READS_SHUTDOWN | WRITES_SHUTDOWN. -/
def CLOSED : Nat := 3

/-- Modelled from the spec: member `http_status_` is declared in the missing
ProxyHandler.h; the spec fixes the immediate policy response to 502
("immediate 502 response", reason string "Bad Gateway" in the source). -/
def http_status : Nat := 502

/-- The mutable members of one ProxyHandler instance, plus two dispatch
facts the C++ object cannot record about itself: `alive` (it has not yet
run `delete this`) and `crashed` (a CHECK macro aborted the process). -/
structure RelayState where
  request : Option HTTPMessage
  needForward : Bool
  forwardUrl : String
  txn : Bool
  upstreamSock : Bool
  sockStatus : Nat
  clientTerminated : Bool
  upstreamEgressPaused : Bool
  downstreamIngressPaused : Bool
  alive : Bool
  crashed : Bool
deriving DecidableEq

/-- Freshly constructed handler: every pointer member null, every flag
false, sockStatus_ zero. -/
def init : RelayState :=
  { request := none
    needForward := false
    forwardUrl := ""
    txn := false
    upstreamSock := false
    sockStatus := 0
    clientTerminated := false
    upstreamEgressPaused := false
    downstreamIngressPaused := false
    alive := true
    crashed := false }

/-- Modelled from the spec: the forward decision computed by
`RequestHander::DoRequest` (BusiHandler.cpp is missing from the tree);
per spec 4.1 it is a synchronous deterministic function of the request
returning the forward flag and the target. -/
def Decision : Type := HTTPMessage → Bool × String

/-- ProxyHandler::abortDownstream: send an abort to the client unless the
client already terminated. -/
def abortDownstream (s : RelayState) : List Action :=
  if s.clientTerminated then [] else [.dsSendAbort]

/-- The condition under which ProxyHandler::checkForShutdown runs
`delete this`: clientTerminated_ && !txn_ && (!upstreamSock_ ||
(sockStatus_ == CLOSED && !upstreamEgressPaused_)). -/
def shutdownPred (s : RelayState) : Bool :=
  s.clientTerminated && !s.txn &&
    (!s.upstreamSock || (s.sockStatus == CLOSED && !s.upstreamEgressPaused))

/-- ProxyHandler::checkForShutdown: delete this exactly when
`shutdownPred` holds.  Deletion is modelled by clearing `alive`; every
call site in the source is in tail position, so this is faithful. -/
def checkForShutdown (s : RelayState) : RelayState × List Action :=
  if shutdownPred s then ({ s with alive := false }, [.ranShutdownCheck, .destroySelf])
  else (s, [.ranShutdownCheck])

/-- ProxyHandler::onRequest: store the request; methods other than GET and
POST get an immediate ResponseBuilder response (status, body, EOM) at once. -/
def onRequest (m : HTTPMessage) (s : RelayState) : RelayState × List Action :=
  let s1 := { s with request := some m }
  if m.method ≠ .GET ∧ m.method ≠ .POST then
    (s1, [.dsSendHeaders http_status "Bad Gateway", .dsSendBody, .dsSendEOM])
  else
    (s1, [])

/-- ProxyHandler::onBody: the body of the function is empty in this
version of the source (the buffering code was removed), so nothing is
stored and nothing is sent. -/
def onBody (s : RelayState) : RelayState × List Action :=
  (s, [])

/-- ProxyHandler::ServiceRequest: run the forward decision and record
`need_forward_` and `forward_url_`.  The request pointer is always set
here because onRequest precedes onEOM. -/
def ServiceRequest (d : Decision) (s : RelayState) : RelayState :=
  match s.request with
  | some m => { s with needForward := (d m).1, forwardUrl := (d m).2 }
  | none => s

/-- ProxyHandler::onEOM: run ServiceRequest; if the decision declined,
send the immediate response and return.  Otherwise pause downstream
ingress (the source calls pauseIngress twice, lines 77 and 81), start the
asynchronous connect, and then send body and EOM to upstream only if a
transaction already exists, which it cannot at this point because
connectSuccess has not yet been delivered; the source then logs
"Dropping client EOM to server". -/
def onEOM (d : Decision) (s : RelayState) : RelayState × List Action :=
  let s1 := ServiceRequest d s
  if !s1.needForward then
    (s1, [.dsSendHeaders http_status "Bad Gateway", .dsSendBody, .dsSendEOM])
  else
    (s1, [.dsPauseIngress, .dsPauseIngress, .connectorConnect]
      ++ (if s1.txn then [.upSendBody] else [])
      ++ (if s1.txn then [.upSendEOM] else [.logDropEOM]))

/-- ProxyHandler::connectSuccess(HTTPUpstreamSession*): wrap the session,
open the upstream transaction, forward the stored request headers, resume
downstream ingress.  No body and no EOM are sent here. -/
def connectSuccess (s : RelayState) : RelayState × List Action :=
  ({ s with txn := true }, [.upSendHeaders, .dsResumeIngress])

/-- ProxyHandler::connectError: if the client has not terminated send a
503 "Bad Gateway" response with EOM; otherwise abort downstream (a no-op
under the clientTerminated guard) and run the shutdown check.  The
not-terminated branch does not run the shutdown check. -/
def connectError (s : RelayState) : RelayState × List Action :=
  if !s.clientTerminated then
    (s, [.dsSendHeaders 503 "Bad Gateway", .dsSendEOM])
  else
    let a0 := abortDownstream s
    let p := checkForShutdown s
    (p.1, a0 ++ p.2)

/-- ProxyHandler::onServerHeadersComplete: CHECK(!clientTerminated_), then
forward the response headers to the client. -/
def onServerHeadersComplete (s : RelayState) : RelayState × List Action :=
  if s.clientTerminated then ({ s with crashed := true }, [.checkFailed])
  else (s, [.dsFwdHeaders])

/-- ProxyHandler::onServerBody: CHECK(!clientTerminated_), then forward
the body chunk to the client. -/
def onServerBody (s : RelayState) : RelayState × List Action :=
  if s.clientTerminated then ({ s with crashed := true }, [.checkFailed])
  else (s, [.dsSendBody])

/-- ProxyHandler::onServerEOM: process the response (DoDownloadResponse is
declared elsewhere and performs no adapter calls), send the buffered chain
to the client unguarded, then send EOM to the client if the client has not
terminated.  There is no guard against being invoked more than once. -/
def onServerEOM (s : RelayState) : RelayState × List Action :=
  (s, [.dsSendBody] ++ (if s.clientTerminated then [] else [.dsSendEOM]))

/-- ProxyHandler::detachServerTransaction: clear txn_ and run the
shutdown check. -/
def detachServerTransaction (s : RelayState) : RelayState × List Action :=
  checkForShutdown { s with txn := false }

/-- ProxyHandler::onServerError: log and abort downstream. -/
def onServerError (s : RelayState) : RelayState × List Action :=
  (s, abortDownstream s)

/-- ProxyHandler::onServerEgressPaused: pause downstream ingress unless the
client terminated.  Nothing records downstreamIngressPaused_. -/
def onServerEgressPaused (s : RelayState) : RelayState × List Action :=
  if !s.clientTerminated then (s, [.dsPauseIngress]) else (s, [])

/-- ProxyHandler::onServerEgressResumed: resume downstream ingress unless
the client terminated. -/
def onServerEgressResumed (s : RelayState) : RelayState × List Action :=
  if !s.clientTerminated then (s, [.dsResumeIngress]) else (s, [])

/-- ProxyHandler::requestComplete: set clientTerminated_ and run the
shutdown check. -/
def requestComplete (s : RelayState) : RelayState × List Action :=
  checkForShutdown { s with clientTerminated := true }

/-- ProxyHandler::onError (client error): set clientTerminated_; abort the
upstream transaction if one exists, ELSE release the raw socket if one
exists; run the shutdown check. -/
def onError (s : RelayState) : RelayState × List Action :=
  let s1 := { s with clientTerminated := true }
  if s1.txn then
    let p := checkForShutdown s1
    (p.1, .upSendAbort :: p.2)
  else if s1.upstreamSock then
    let p := checkForShutdown { s1 with upstreamSock := false }
    (p.1, .sockReset :: p.2)
  else
    checkForShutdown s1

/-- ProxyHandler::onEgressPaused (client cannot accept more data): pause
upstream ingress through the transaction, or detach the raw socket's read
callback. -/
def onEgressPaused (s : RelayState) : RelayState × List Action :=
  if s.txn then (s, [.upPauseIngress])
  else if s.upstreamSock then (s, [.sockSetReadCB false])
  else (s, [])

/-- ProxyHandler::onEgressResumed: resume upstream ingress through the
transaction, or re-attach the raw socket's read callback. -/
def onEgressResumed (s : RelayState) : RelayState × List Action :=
  if s.txn then (s, [.upResumeIngress])
  else if s.upstreamSock then (s, [.sockSetReadCB true])
  else (s, [])

/-- ProxyHandler::readDataAvailable: forward the bytes read from the raw
socket to the client. -/
def readDataAvailable (s : RelayState) : RelayState × List Action :=
  (s, [.dsSendBody])

/-- ProxyHandler::readEOF: mark reads shut down, then call onServerEOM. -/
def readEOF (s : RelayState) : RelayState × List Action :=
  onServerEOM { s with sockStatus := s.sockStatus ||| READS_SHUTDOWN }

/-- ProxyHandler::readErr: abort downstream, release the raw socket, run
the shutdown check. -/
def readErr (s : RelayState) : RelayState × List Action :=
  let a0 := abortDownstream s
  let p := checkForShutdown { s with upstreamSock := false }
  (p.1, a0 ++ [.sockReset] ++ p.2)

/-- ProxyHandler::writeSuccess: clear upstreamEgressPaused_; if
downstreamIngressPaused_ was set, clear it and run onServerEgressResumed;
run the shutdown check. -/
def writeSuccess (s : RelayState) : RelayState × List Action :=
  let s1 := { s with upstreamEgressPaused := false }
  if s1.downstreamIngressPaused then
    let s2 := { s1 with downstreamIngressPaused := false }
    let q := onServerEgressResumed s2
    let p := checkForShutdown q.1
    (p.1, q.2 ++ p.2)
  else
    checkForShutdown s1

/-- ProxyHandler::writeErr: clear upstreamEgressPaused_, abort downstream,
release the raw socket, run the shutdown check. -/
def writeErr (s : RelayState) : RelayState × List Action :=
  let s1 := { s with upstreamEgressPaused := false }
  let a0 := abortDownstream s1
  let p := checkForShutdown { s1 with upstreamSock := false }
  (p.1, a0 ++ [.sockReset] ++ p.2)

/-- The events the surrounding framework can deliver to one handler
instance: downstream (client) callbacks, connector callbacks, upstream
transaction callbacks, and raw-socket callbacks. -/
inductive Event
  | evOnRequest (m : HTTPMessage)
  | evOnBody
  | evOnEOM
  | evConnectSuccess
  | evConnectError
  | evOnServerHeadersComplete
  | evOnServerBody
  | evOnServerEOM
  | evDetachServerTransaction
  | evOnServerError
  | evOnServerEgressPaused
  | evOnServerEgressResumed
  | evRequestComplete
  | evOnError
  | evOnEgressPaused
  | evOnEgressResumed
  | evReadDataAvailable
  | evReadEOF
  | evReadErr
  | evWriteSuccess
  | evWriteErr
deriving DecidableEq

/-- Downstream ingress callbacks (onRequest, onBody, onEOM).  proxygen
stops delivering these after the request side has completed or errored,
i.e. after any event that sets clientTerminated. -/
def Event.isClientIngress : Event → Bool
  | .evOnRequest _ => true
  | .evOnBody => true
  | .evOnEOM => true
  | _ => false

/-- One event-loop dispatch: a deleted or crashed handler receives no
callback; otherwise run the source callback for the event. -/
def step (d : Decision) (s : RelayState) (e : Event) : RelayState × List Action :=
  if !s.alive || s.crashed then (s, [])
  else
    match e with
    | .evOnRequest m => onRequest m s
    | .evOnBody => onBody s
    | .evOnEOM => onEOM d s
    | .evConnectSuccess => connectSuccess s
    | .evConnectError => connectError s
    | .evOnServerHeadersComplete => onServerHeadersComplete s
    | .evOnServerBody => onServerBody s
    | .evOnServerEOM => onServerEOM s
    | .evDetachServerTransaction => detachServerTransaction s
    | .evOnServerError => onServerError s
    | .evOnServerEgressPaused => onServerEgressPaused s
    | .evOnServerEgressResumed => onServerEgressResumed s
    | .evRequestComplete => requestComplete s
    | .evOnError => onError s
    | .evOnEgressPaused => onEgressPaused s
    | .evOnEgressResumed => onEgressResumed s
    | .evReadDataAvailable => readDataAvailable s
    | .evReadEOF => readEOF s
    | .evReadErr => readErr s
    | .evWriteSuccess => writeSuccess s
    | .evWriteErr => writeErr s

/-- Fold a whole event sequence, concatenating the emitted actions. -/
def run (d : Decision) (s : RelayState) : List Event → RelayState × List Action
  | [] => (s, [])
  | e :: es =>
    let p := step d s e
    let q := run d p.1 es
    (q.1, p.2 ++ q.2)

/-- A decision that declines forwarding, for concrete runs. -/
def dFalse : Decision := fun _ => (false, "")

/-- A decision that forwards every request, for concrete runs. -/
def dTrue : Decision := fun _ => (true, "10.0.0.1:80")

/-- The full action trace of a DELETE request followed by the client EOM,
under an arbitrary forward decision. -/
def deleteTrace (d : Decision) : List Action :=
  (run d init [.evOnRequest ⟨.DELETE, "x"⟩, .evOnEOM]).2

/-- The full action trace of a complete declined request: headers, `k`
buffered body chunks, client EOM, request completion. -/
def declineTrace (d : Decision) (m : HTTPMessage) (k : Nat) : List Action :=
  (run d init ([.evOnRequest m] ++ List.replicate k .evOnBody
    ++ [.evOnEOM, .evRequestComplete])).2

/-- The full action trace of a successfully forwarded GET request with a
complete upstream response, through destruction. -/
def forwardTrace : List Action :=
  (run dTrue init [.evOnRequest ⟨.GET, "x"⟩, .evOnEOM, .evConnectSuccess,
    .evOnServerHeadersComplete, .evOnServerBody, .evOnServerEOM,
    .evDetachServerTransaction, .evRequestComplete]).2

example :
    (run dFalse init [.evOnRequest ⟨.GET, "a"⟩, .evOnEOM, .evRequestComplete]).2 =
      [.dsSendHeaders 502 "Bad Gateway", .dsSendBody, .dsSendEOM,
       .ranShutdownCheck, .destroySelf] := by decide

example :
    (run dTrue init [.evOnRequest ⟨.GET, "a"⟩, .evOnEOM, .evConnectSuccess]).2 =
      [.dsPauseIngress, .dsPauseIngress, .connectorConnect, .logDropEOM,
       .upSendHeaders, .dsResumeIngress] := by decide

/-- A deleted handler receives no further callbacks. -/
theorem step_not_alive (d : Decision) (s : RelayState) (e : Event)
    (h : s.alive = false) : step d s e = (s, []) := by
  simp [step, h]

/-- A crashed process runs no further callbacks. -/
theorem step_of_crashed (d : Decision) (s : RelayState) (e : Event)
    (h : s.crashed = true) : step d s e = (s, []) := by
  simp [step, h]

/-- A deleted handler emits nothing over any event sequence. -/
theorem run_not_alive (d : Decision) (es : List Event) :
    ∀ s : RelayState, s.alive = false → run d s es = (s, []) := by
  induction es with
  | nil => intro s _; rfl
  | cons e es ih =>
    intro s h
    simp [run, step_not_alive d s e h, ih s h]

/-- C9: when the client signals egress-paused the handler pauses upstream
ingress, through the transaction's pauseIngress when a transaction exists
and otherwise by detaching the raw socket's read callback, and
symmetrically resumes upstream ingress on client egress-resumed. -/
theorem client_backpressure_pauses_upstream (d : Decision) (s : RelayState)
    (ha : s.alive = true) (hc : s.crashed = false) :
    (s.txn = true →
      step d s .evOnEgressPaused = (s, [.upPauseIngress])
      ∧ step d s .evOnEgressResumed = (s, [.upResumeIngress]))
    ∧ (s.txn = false → s.upstreamSock = true →
      step d s .evOnEgressPaused = (s, [.sockSetReadCB false])
      ∧ step d s .evOnEgressResumed = (s, [.sockSetReadCB true])) := by
  constructor
  · intro ht
    constructor <;> simp [step, ha, hc, onEgressPaused, onEgressResumed, ht]
  · intro ht hs
    constructor <;> simp [step, ha, hc, onEgressPaused, onEgressResumed, ht, hs]

/-- Concrete instantiation of the C9 theorem on a live relaying state. -/
theorem client_backpressure_pauses_upstream_witness :
    step dFalse { init with txn := true } .evOnEgressPaused =
      ({ init with txn := true }, [.upPauseIngress]) :=
  ((client_backpressure_pauses_upstream dFalse { init with txn := true } rfl rfl).1 rfl).1

/-- C10: once clientTerminated is true, no event the framework can still
deliver (client ingress callbacks stop after termination) makes the
handler send an abort or an EOM to the downstream client: every
sendAbort runs through the abortDownstream guard and the downstream
sendEOM of the upstream-EOM path checks the same flag. -/
theorem no_downstream_abort_or_eom_after_termination (d : Decision)
    (s : RelayState) (e : Event) (hterm : s.clientTerminated = true)
    (hing : e.isClientIngress = false) :
    Action.dsSendAbort ∉ (step d s e).2 ∧ Action.dsSendEOM ∉ (step d s e).2 := by
  by_cases hd : (!s.alive || s.crashed) = true
  · simp [step, hd]
  · cases e <;> simp_all [step, Event.isClientIngress, onBody, connectSuccess,
      connectError, onServerHeadersComplete, onServerBody, onServerEOM,
      detachServerTransaction, onServerError, onServerEgressPaused,
      onServerEgressResumed, requestComplete, onError, onEgressPaused,
      onEgressResumed, readDataAvailable, readEOF, readErr, writeSuccess,
      writeErr, checkForShutdown, abortDownstream] <;>
    split_ifs <;> simp_all

/-- Concrete instantiation of the C10 theorem: a connect failure after the
client aborted sends neither abort nor EOM downstream. -/
theorem no_downstream_abort_or_eom_after_termination_witness :
    Action.dsSendAbort ∉ (step dFalse { init with clientTerminated := true } .evConnectError).2
    ∧ Action.dsSendEOM ∉ (step dFalse { init with clientTerminated := true } .evConnectError).2 :=
  no_downstream_abort_or_eom_after_termination dFalse
    { init with clientTerminated := true } .evConnectError rfl rfl

/-- C6 counterexample: on a connect failure with the client still active
the handler sends the gateway-error response but does not run the
shutdown check, contrary to the claim that the check runs in both cases. -/
theorem connect_error_no_check_counterexample :
    Action.dsSendHeaders 503 "Bad Gateway" ∈ (step dFalse init .evConnectError).2
    ∧ Action.ranShutdownCheck ∉ (step dFalse init .evConnectError).2 := by decide

/-- C6 as amended: on upstream connect failure, if the client has not
terminated the handler sends exactly one 503 gateway-error immediate
response (headers and EOM) and runs no shutdown check; if the client has
terminated, it sends no immediate response, its abort-downstream call is
a no-op under the clientTerminated guard, and it runs the shutdown check. -/
theorem connect_error_behaviour (d : Decision) (s : RelayState)
    (ha : s.alive = true) (hc : s.crashed = false) :
    (s.clientTerminated = false →
      step d s .evConnectError = (s, [.dsSendHeaders 503 "Bad Gateway", .dsSendEOM]))
    ∧ (s.clientTerminated = true →
      (step d s .evConnectError).2.countP Action.isImmediate = 0
      ∧ Action.dsSendAbort ∉ (step d s .evConnectError).2
      ∧ Action.ranShutdownCheck ∈ (step d s .evConnectError).2) := by
  constructor
  · intro ht
    simp [step, ha, hc, connectError, ht]
  · intro ht
    simp only [step, ha, hc, connectError, ht, abortDownstream, checkForShutdown]
    split_ifs <;> simp_all [Action.isImmediate]

/-- Concrete instantiation of the C6 amended theorem in the
client-not-terminated branch. -/
theorem connect_error_behaviour_witness :
    step dFalse init .evConnectError =
      (init, [.dsSendHeaders 503 "Bad Gateway", .dsSendEOM]) :=
  (connect_error_behaviour dFalse init rfl rfl).1 rfl

/-- C8 counterexample: upstream egress-paused pauses downstream ingress
but does not record downstreamIngressPaused, contrary to the claim. -/
theorem upstream_pause_flag_counterexample :
    Action.dsPauseIngress ∈ (step dFalse init .evOnServerEgressPaused).2
    ∧ (step dFalse init .evOnServerEgressPaused).1.downstreamIngressPaused = false := by
  decide

/-- C8 as amended: when upstream signals egress-paused and the client has
not terminated, the handler pauses downstream ingress but records nothing
(the state, including downstreamIngressPaused, is unchanged); on upstream
egress-resumed it resumes downstream ingress unconditionally; only the
raw-socket write-success path clears downstreamIngressPaused, and when the
flag was set it resumes downstream ingress through the egress-resumed
path. -/
theorem upstream_backpressure_behaviour (d : Decision) (s : RelayState)
    (ha : s.alive = true) (hc : s.crashed = false) :
    (s.clientTerminated = false →
      step d s .evOnServerEgressPaused = (s, [.dsPauseIngress])
      ∧ step d s .evOnServerEgressResumed = (s, [.dsResumeIngress]))
    ∧ (s.downstreamIngressPaused = true →
      (step d s .evWriteSuccess).1.downstreamIngressPaused = false
      ∧ (step d s .evWriteSuccess).1.upstreamEgressPaused = false
      ∧ (s.clientTerminated = false →
          Action.dsResumeIngress ∈ (step d s .evWriteSuccess).2)) := by
  constructor
  · intro ht
    constructor <;> simp [step, ha, hc, onServerEgressPaused, onServerEgressResumed, ht]
  · intro hp
    simp only [step, ha, hc, writeSuccess, hp]
    refine ⟨?_, ?_, ?_⟩
    · simp [onServerEgressResumed, checkForShutdown]
      split_ifs <;> simp_all
    · simp [onServerEgressResumed, checkForShutdown]
      split_ifs <;> simp_all
    · intro ht
      simp [onServerEgressResumed, checkForShutdown, ht]

/-- Concrete instantiation of the C8 amended theorem. -/
theorem upstream_backpressure_behaviour_witness :
    step dFalse init .evOnServerEgressPaused = (init, [.dsPauseIngress]) :=
  ((upstream_backpressure_behaviour dFalse init rfl rfl).1 rfl).1

/-- C5: the code does not make downstream EOM delivery idempotent: with an
upstream transaction and raw socket attached and the client active, a
raw-socket read EOF followed by the transaction end-of-message invokes
onServerEOM twice and the client is sent two EOMs. -/
theorem duplicate_downstream_eom :
    ((run dTrue { init with txn := true, upstreamSock := true }
      [.evReadEOF, .evOnServerEOM]).2.count Action.dsSendEOM) = 2 := by decide

/-- C2: evaluating a successful forward end to end: the upstream receives
the request headers but never a body chunk nor an end-of-message; the
client EOM is dropped (logDropEOM) because the transaction is created only
in the later connectSuccess callback, after onEOM's guarded sends ran. -/
theorem forward_sends_headers_only :
    Action.upSendHeaders ∈ forwardTrace
    ∧ forwardTrace.count Action.upSendEOM = 0
    ∧ forwardTrace.count Action.upSendBody = 0
    ∧ Action.logDropEOM ∈ forwardTrace := by decide

/-- Buffered client body chunks are no-ops in this version of the source
(onBody is empty), so they can be dropped from any event sequence. -/
theorem run_replicate_onBody (d : Decision) (rest : List Event) :
    ∀ (k : Nat) (s : RelayState), s.alive = true → s.crashed = false →
      run d s (List.replicate k .evOnBody ++ rest) = run d s rest := by
  intro k
  induction k with
  | zero => intro s _ _; rfl
  | succ k ih =>
    intro s ha hc
    have hstep : step d s .evOnBody = (s, []) := by simp [step, ha, hc, onBody]
    simp only [List.replicate_succ, List.cons_append, run, hstep]
    simpa using ih s ha hc

/-- C3: for every forward decision, a DELETE request is answered with the
502 in onRequest, but the client EOM still runs the forwarding decision,
so the trace then carries either a second immediate response or an
upstream connector invocation — the request is not terminated by the 502. -/
theorem delete_request_not_terminated (d : Decision) :
    2 ≤ (deleteTrace d).countP Action.isImmediate
    ∨ Action.connectorConnect ∈ deleteTrace d := by
  rcases hdm : d ⟨.DELETE, "x"⟩ with ⟨b, u⟩
  cases b
  · left
    simp [deleteTrace, run, step, init, onRequest, onEOM, ServiceRequest, hdm,
      Action.isImmediate, http_status]
  · right
    simp [deleteTrace, run, step, init, onRequest, onEOM, ServiceRequest, hdm,
      Action.isImmediate]

/-- C4 counterexample: a DELETE request whose forward decision declines
receives two immediate responses, not exactly one. -/
theorem decline_two_responses_counterexample :
    (deleteTrace dFalse).countP Action.isImmediate = 2 := by decide

/-- C4 as amended: for every GET or POST request whose forward decision
declines, the handler makes no upstream connection attempt and sends
exactly one immediate response to the client: one synthesized header
send, one body send and one EOM over the whole request lifetime. -/
theorem decline_single_response (d : Decision) (m : HTTPMessage) (k : Nat)
    (hm : m.method = .GET ∨ m.method = .POST) (hd : (d m).1 = false) :
    (declineTrace d m k).countP Action.isImmediate = 1
    ∧ Action.connectorConnect ∉ declineTrace d m k
    ∧ (declineTrace d m k).count Action.dsSendBody = 1
    ∧ (declineTrace d m k).count Action.dsSendEOM = 1 := by
  obtain ⟨meth, u⟩ := m
  have hrest := run_replicate_onBody d [Event.evOnEOM, Event.evRequestComplete] k
    { init with request := some ⟨meth, u⟩ } rfl rfl
  rcases hm with hm | hm <;>
    (simp only [] at hm; subst hm) <;>
    simp_all [declineTrace, run, step, init, onRequest, onEOM, ServiceRequest,
      requestComplete, checkForShutdown, shutdownPred, Action.isImmediate]

/-- Concrete instantiation of the C4 amended theorem: a declined GET with
one buffered body chunk. -/
theorem decline_single_response_witness :
    (declineTrace dFalse ⟨.GET, "x"⟩ 1).countP Action.isImmediate = 1
    ∧ Action.connectorConnect ∉ declineTrace dFalse ⟨.GET, "x"⟩ 1
    ∧ (declineTrace dFalse ⟨.GET, "x"⟩ 1).count Action.dsSendBody = 1
    ∧ (declineTrace dFalse ⟨.GET, "x"⟩ 1).count Action.dsSendEOM = 1 :=
  decline_single_response dFalse ⟨.GET, "x"⟩ 1 (Or.inl rfl) rfl

/-- ServiceRequest only writes need_forward_ and forward_url_. -/
@[simp] theorem ServiceRequest_txn (d : Decision) (s : RelayState) :
    (ServiceRequest d s).txn = s.txn := by
  unfold ServiceRequest; cases s.request <;> rfl

/-- ServiceRequest leaves the raw socket member alone. -/
@[simp] theorem ServiceRequest_upstreamSock (d : Decision) (s : RelayState) :
    (ServiceRequest d s).upstreamSock = s.upstreamSock := by
  unfold ServiceRequest; cases s.request <;> rfl

/-- ServiceRequest leaves clientTerminated_ alone. -/
@[simp] theorem ServiceRequest_clientTerminated (d : Decision) (s : RelayState) :
    (ServiceRequest d s).clientTerminated = s.clientTerminated := by
  unfold ServiceRequest; cases s.request <;> rfl

/-- ServiceRequest leaves liveness alone. -/
@[simp] theorem ServiceRequest_alive (d : Decision) (s : RelayState) :
    (ServiceRequest d s).alive = s.alive := by
  unfold ServiceRequest; cases s.request <;> rfl

/-- ServiceRequest leaves the crash marker alone. -/
@[simp] theorem ServiceRequest_crashed (d : Decision) (s : RelayState) :
    (ServiceRequest d s).crashed = s.crashed := by
  unfold ServiceRequest; cases s.request <;> rfl

/-- ServiceRequest leaves sockStatus_ alone. -/
@[simp] theorem ServiceRequest_sockStatus (d : Decision) (s : RelayState) :
    (ServiceRequest d s).sockStatus = s.sockStatus := by
  unfold ServiceRequest; cases s.request <;> rfl

/-- ServiceRequest leaves upstreamEgressPaused_ alone. -/
@[simp] theorem ServiceRequest_upstreamEgressPaused (d : Decision) (s : RelayState) :
    (ServiceRequest d s).upstreamEgressPaused = s.upstreamEgressPaused := by
  unfold ServiceRequest; cases s.request <;> rfl

/-- No callback of this version of the source ever attaches a raw upstream
socket: upstreamSock_ can only be cleared (the upgrade path that created
it was removed), so it stays null from construction on. -/
theorem step_upstreamSock_none (d : Decision) (s : RelayState) (e : Event)
    (h : s.upstreamSock = false) : (step d s e).1.upstreamSock = false := by
  by_cases hd : (!s.alive || s.crashed) = true
  · simp [step, hd, h]
  · cases e <;>
      simp_all [step, onRequest, onBody, onEOM, connectSuccess, connectError,
        onServerHeadersComplete, onServerBody, onServerEOM,
        detachServerTransaction, onServerError, onServerEgressPaused,
        onServerEgressResumed, requestComplete, onError, onEgressPaused,
        onEgressResumed, readDataAvailable, readEOF, readErr, writeSuccess,
        writeErr, checkForShutdown, abortDownstream] <;>
      split_ifs <;> simp_all

/-- Over any event sequence from construction, the raw upstream socket
stays null. -/
theorem run_upstreamSock_none (d : Decision) (es : List Event) :
    ∀ s : RelayState, s.upstreamSock = false → (run d s es).1.upstreamSock = false := by
  induction es with
  | nil => intro s h; exact h
  | cons e es ih =>
    intro s h
    simp only [run]
    exact ih _ (step_upstreamSock_none d s e h)

/-- C7: from every reachable live state, a client error or abort sets
clientTerminated, aborts the upstream transaction when one is attached,
releases the raw upstream socket when one exists (vacuously true: no
reachable state has one), and runs the shutdown check. -/
theorem client_error_teardown (d : Decision) (es : List Event)
    (ha : (run d init es).1.alive = true)
    (hc : (run d init es).1.crashed = false) :
    (step d (run d init es).1 .evOnError).1.clientTerminated = true
    ∧ ((run d init es).1.txn = true →
        Action.upSendAbort ∈ (step d (run d init es).1 .evOnError).2)
    ∧ ((run d init es).1.upstreamSock = true →
        Action.sockReset ∈ (step d (run d init es).1 .evOnError).2)
    ∧ Action.ranShutdownCheck ∈ (step d (run d init es).1 .evOnError).2 := by
  have hsock : (run d init es).1.upstreamSock = false :=
    run_upstreamSock_none d es init rfl
  by_cases htxn : (run d init es).1.txn = true <;>
    simp_all [step, onError, checkForShutdown] <;>
    split_ifs <;> simp_all

/-- Concrete instantiation of the C7 theorem at the freshly constructed
handler. -/
theorem client_error_teardown_witness :
    (step dFalse (run dFalse init []).1 .evOnError).1.clientTerminated = true
    ∧ ((run dFalse init []).1.txn = true →
        Action.upSendAbort ∈ (step dFalse (run dFalse init []).1 .evOnError).2)
    ∧ ((run dFalse init []).1.upstreamSock = true →
        Action.sockReset ∈ (step dFalse (run dFalse init []).1 .evOnError).2)
    ∧ Action.ranShutdownCheck ∈ (step dFalse (run dFalse init []).1 .evOnError).2 :=
  client_error_teardown dFalse [] rfl rfl

/-- One dispatch and destruction: a step that leaves the handler alive
emitted no destroy; any step emits at most one destroy; and a destroy
leaves the handler dead, comes with a shutdown-check run, and ends in a
state satisfying the shutdown condition. -/
theorem step_destroy_aux (d : Decision) (s : RelayState) (e : Event) :
    ((step d s e).1.alive = true → (step d s e).2.count Action.destroySelf = 0)
    ∧ (step d s e).2.count Action.destroySelf ≤ 1
    ∧ (Action.destroySelf ∈ (step d s e).2 →
        (step d s e).1.alive = false
        ∧ Action.ranShutdownCheck ∈ (step d s e).2
        ∧ shutdownPred (step d s e).1 = true) := by
  by_cases hd : (!s.alive || s.crashed) = true
  · simp [step, hd]
  · cases e <;>
      simp_all [step, onRequest, onBody, onEOM, connectSuccess, connectError,
        onServerHeadersComplete, onServerBody, onServerEOM,
        detachServerTransaction, onServerError, onServerEgressPaused,
        onServerEgressResumed, requestComplete, onError, onEgressPaused,
        onEgressResumed, readDataAvailable, readEOF, readErr, writeSuccess,
        writeErr, checkForShutdown, abortDownstream,
        List.count_cons, List.count_append] <;>
      split_ifs <;> simp_all [shutdownPred]

/-- At most one destroy is ever emitted over any event sequence. -/
theorem run_destroy_le_one (d : Decision) (es : List Event) :
    ∀ s : RelayState, ((run d s es).2.count Action.destroySelf) ≤ 1 := by
  induction es with
  | nil => intro s; simp [run]
  | cons e es ih =>
    intro s
    have h := step_destroy_aux d s e
    by_cases hp : (step d s e).1.alive = true
    · have h0 := h.1 hp
      simp only [run, List.count_append, h0, Nat.zero_add]
      exact ih _
    · have hdead : (step d s e).1.alive = false := by
        cases hh : (step d s e).1.alive
        · rfl
        · exact absurd hh hp
      have hrest := run_not_alive d es (step d s e).1 hdead
      simp only [run, List.count_append, hrest]
      simpa using h.2.1

/-- C1: the shutdown check destroys the handler exactly when
clientTerminated holds, no upstream transaction is attached, and either no
raw upstream socket exists or it is fully closed and not egress-paused;
every destruction happens through a shutdown-check run ending in a state
satisfying that condition and leaves the handler dead; a dead handler
processes no further event, so a repeated check performs no further
destruction; at most one destruction occurs per request over any event
sequence; and a representative complete request destroys exactly once. -/
theorem relay_destroyed_exactly_once :
    (∀ s : RelayState,
      Action.destroySelf ∈ (checkForShutdown s).2 ↔ shutdownPred s = true)
    ∧ (∀ (d : Decision) (s : RelayState) (e : Event),
        Action.destroySelf ∈ (step d s e).2 →
          (step d s e).1.alive = false
          ∧ Action.ranShutdownCheck ∈ (step d s e).2
          ∧ shutdownPred (step d s e).1 = true)
    ∧ (∀ (d : Decision) (s : RelayState) (e : Event),
        s.alive = false → step d s e = (s, []))
    ∧ (∀ (d : Decision) (es : List Event),
        ((run d init es).2.count Action.destroySelf) ≤ 1)
    ∧ ((run dFalse init [.evOnRequest ⟨.GET, "x"⟩, .evOnEOM,
        .evRequestComplete]).2.count Action.destroySelf = 1) := by
  refine ⟨?_, ?_, ?_, ?_, ?_⟩
  · intro s
    unfold checkForShutdown
    split_ifs with h <;> simp [h]
  · intro d s e hmem
    exact (step_destroy_aux d s e).2.2 hmem
  · intro d s e h
    exact step_not_alive d s e h
  · intro d es
    exact run_destroy_le_one d es init
  · decide

/-- Concrete instantiations of the C1 theorem: the check destroys iff the
condition holds at a terminated quiescent state; a dead handler ignores
events; a destroying dispatch ends dead in a state satisfying the
condition, with the check run. -/
theorem relay_destroyed_exactly_once_witness :
    (Action.destroySelf ∈ (checkForShutdown { init with clientTerminated := true }).2
      ↔ shutdownPred { init with clientTerminated := true } = true)
    ∧ step dFalse { init with alive := false } .evOnBody =
        ({ init with alive := false }, [])
    ∧ ((step dFalse { init with clientTerminated := true } .evRequestComplete).1.alive = false
      ∧ Action.ranShutdownCheck ∈
          (step dFalse { init with clientTerminated := true } .evRequestComplete).2
      ∧ shutdownPred (step dFalse { init with clientTerminated := true } .evRequestComplete).1
          = true) :=
  ⟨relay_destroyed_exactly_once.1 { init with clientTerminated := true },
   relay_destroyed_exactly_once.2.2.1 dFalse { init with alive := false } .evOnBody rfl,
   relay_destroyed_exactly_once.2.1 dFalse { init with clientTerminated := true }
     .evRequestComplete (by decide)⟩

end ProxyRelay
